import Mathlib

/-!
# Verification of the PDF compressor pipeline (src/pdfcompressor.py)

A shallow embedding of the compression script: profile selection by
substring match on the radio-button label (lines 27-45), the per-page
rasterize/encode/rebuild loop (lines 52-69), serialization and metrics
(lines 71-78), the exception-guarded preview block (lines 85-101), and
the download of the compressed bytes (lines 104-109).

External library behaviour (PyMuPDF rasterization, JPEG encoding,
serialization) is modelled abstractly where noted; the control flow,
the profile table, the page loop, the metrics formula and the
error-propagation structure are translated from the Python source.
-/

namespace PDFCompressor

/-- The three radio options of line 29, in order. -/
def radioOptions : List String :=
  ["High Quality (Low Compression)", "Balanced (Recommended)",
   "Smallest Size (Aggressive Compression)"]

/-- `index=1` on line 30: the pre-selected radio option. -/
def radioDefaultIndex : Nat := 1

/-- Python's `pat in s` substring test, used on lines 37 and 40. -/
def containsSub (s pat : String) : Bool :=
  decide (List.IsInfix pat.toList s.toList)

/-- `image_quality` as assigned by the if/elif/else of lines 37-45. -/
def imageQuality (level : String) : Nat :=
  if containsSub level "High Quality" then 90
  else if containsSub level "Balanced" then 70
  else 50

/-- `dpi` as assigned by the if/elif/else of lines 37-45. -/
def dpiOf (level : String) : Nat :=
  if containsSub level "High Quality" then 150
  else if containsSub level "Balanced" then 120
  else 100

/-- A source page: its intrinsic size in points, plus two flags modelling
whether the external library calls on it raise an exception
(`page.get_pixmap` on line 54 / `img.save` on line 61). -/
structure Page where
  widthPt : ℚ
  heightPt : ℚ
  rasterFails : Bool
  encodeFails : Bool
  deriving DecidableEq, Repr

/-- Modelled from the spec: a pixel count from a point extent and a dpi,
`round(extentPt * dpi / 72)` — the pixel dimensions PyMuPDF's
`page.get_pixmap(dpi=dpi)` produces (line 54 and lines 93/96). -/
def pixelsOf (extentPt : ℚ) (dpi : Nat) : ℤ :=
  round (extentPt * dpi / 72)

/-- Pixmap width of a page at a given dpi. -/
def pixW (p : Page) (dpi : Nat) : ℤ := pixelsOf p.widthPt dpi

/-- Pixmap height of a page at a given dpi. -/
def pixH (p : Page) (dpi : Nat) : ℤ := pixelsOf p.heightPt dpi

/-- The JPEG bytes written on line 61, abstracted to their provenance:
which page index they encode, the pixel dimensions of the raster, and the
quality used. -/
structure EncodedImage where
  srcIndex : Nat
  width : ℤ
  height : ℤ
  quality : Nat
  deriving DecidableEq, Repr

/-- One page of the rebuilt document: `output_pdf.new_page` on line 66
sizes the page (in points) to the pixmap's pixel dimensions, and
`insert_image` on line 67 places the encoded image over the full rect. -/
structure OutPage where
  widthPt : ℤ
  heightPt : ℤ
  image : EncodedImage
  deriving DecidableEq, Repr

/-- A page's library calls fail iff one of its two flags is set. -/
def pageFails (p : Page) : Bool := p.rasterFails || p.encodeFails

/-- The successful result of one loop iteration (lines 53-67) for the
page at index `idx`. -/
def renderPage (dpi quality idx : Nat) (p : Page) : OutPage :=
  { widthPt := pixW p dpi
    heightPt := pixH p dpi
    image :=
      { srcIndex := idx
        width := pixW p dpi
        height := pixH p dpi
        quality := quality } }

/-- One iteration of the loop body, lines 53-67: `none` models an
exception escaping from `get_pixmap` or `img.save`. -/
def processPage (dpi quality idx : Nat) (p : Page) : Option OutPage :=
  if p.rasterFails then none
  else if p.encodeFails then none
  else some (renderPage dpi quality idx p)

/-- The error of a failed loop iteration: the spec's
`PageRenderError{pageIndex}`. In the Python source the exception raised
at iteration `page_number` propagates out of the loop uncaught. -/
structure PageRenderError where
  pageIndex : Nat
  deriving DecidableEq, Repr

/-- The page loop of lines 52-69, started at index `start`: pages are
processed strictly in order and the first exception aborts the loop,
so no pages after the failing one are touched. -/
def buildPages (dpi quality : Nat) : Nat → List Page → Except PageRenderError (List OutPage)
  | _, [] => .ok []
  | i, p :: ps =>
    match processPage dpi quality i p with
    | none => .error ⟨i⟩
    | some op => (buildPages dpi quality (i + 1) ps).map (op :: ·)

/-- The input document: its pages and the byte count of `pdf_bytes`. -/
structure Document where
  pages : List Page
  sizeBytes : Nat
  deriving DecidableEq, Repr

/-- Metrics of lines 76-78. -/
structure Metrics where
  originalSize : Nat
  compressedSize : Nat
  reductionPercent : ℚ
  deriving DecidableEq, Repr

/-- Line 78:
`((original_size - compressed_size) / original_size) * 100 if original_size > 0 else 0`. -/
def reduction (originalSize compressedSize : Nat) : ℚ :=
  if 0 < originalSize then
    (((originalSize : ℚ) - (compressedSize : ℚ)) / (originalSize : ℚ)) * 100
  else 0

/-- The primary pipeline, lines 47-78: resolve the profile, run the page
loop; on success serialize (`output_pdf.tobytes()`, modelled by the
abstract byte-count function `ser`) and compute metrics. An exception in
the loop propagates: no bytes and no metrics are produced. -/
def compressRun (ser : List OutPage → Nat) (level : String) (doc : Document) :
    Except PageRenderError (List OutPage × Metrics) :=
  (buildPages (dpiOf level) (imageQuality level) 0 doc.pages).map fun out =>
    (out,
      { originalSize := doc.sizeBytes
        compressedSize := ser out
        reductionPercent := reduction doc.sizeBytes (ser out) })

/-- Whether the handles of lines 47-48 were closed by lines 73-74: the
close calls sit after the loop with no `finally`, so an exception in the
loop skips both. -/
def runHandles (ser : List OutPage → Nat) (level : String) (doc : Document) :
    Except PageRenderError (List OutPage × Metrics) × (Bool × Bool) :=
  match compressRun ser level doc with
  | .error e => (.error e, (false, false))
  | .ok r => (.ok r, (true, true))

/-- `dpi=80` on lines 93 and 96: the fixed preview resolution. -/
def previewDpi : Nat := 80

/-- One side-by-side preview entry: pixel dimensions of the page-`index`
pixmaps of the original and the reopened compressed document, both
rendered at `previewDpi`. -/
structure PreviewPair where
  index : Nat
  origW : ℤ
  origH : ℤ
  compW : ℤ
  compH : ℤ
  deriving DecidableEq, Repr

/-- The preview loop of lines 89-97: `min(5, len(orig_doc))` iterations,
page `i` of each document rendered at `previewDpi`. A page of the
reopened compressed document has point size `op.widthPt × op.heightPt`. -/
def previewPairs (orig : List Page) (comp : List OutPage) : List PreviewPair :=
  (List.range (min 5 orig.length)).map fun i =>
    match orig.get? i, comp.get? i with
    | some p, some op =>
      { index := i
        origW := pixW p previewDpi
        origH := pixH p previewDpi
        compW := pixelsOf (op.widthPt : ℚ) previewDpi
        compH := pixelsOf (op.heightPt : ℚ) previewDpi }
    | _, _ => { index := i, origW := 0, origH := 0, compW := 0, compH := 0 }

/-- The outcome handed to the caller when compression succeeded: the
rebuilt pages (whose bytes feed the download button on lines 104-109),
the metrics, and the preview — `none` when the preview block raised and
line 101 issued a warning instead. -/
structure RunOutcome where
  output : List OutPage
  metrics : Metrics
  preview : Option (List PreviewPair)
  deriving DecidableEq, Repr

/-- Lines 33-109 end to end. `previewOk` models whether the external
rendering calls inside the `try` of lines 85-99 succeed; when they do
not, the `except` of line 100 converts the failure to a warning and the
script still reaches the download button with `optimized_bytes`. -/
def fullRun (ser : List OutPage → Nat) (previewOk : Bool) (level : String) (doc : Document) :
    Except PageRenderError RunOutcome :=
  match compressRun ser level doc with
  | .error e => .error e
  | .ok (out, m) =>
    .ok { output := out
          metrics := m
          preview := if previewOk then some (previewPairs doc.pages out) else none }

/-! ## Shared concrete inputs for witnesses -/

/-- A byte-count model for `output_pdf.tobytes()` used in concrete runs. -/
def demoSer : List OutPage → Nat := fun out => 100 * out.length + 20

/-- The Balanced radio label. -/
def balancedLevel : String := "Balanced (Recommended)"

/-! ## Helper lemmas -/

theorem processPage_eq (dpi quality idx : Nat) (p : Page) :
    processPage dpi quality idx p =
      if pageFails p then none else some (renderPage dpi quality idx p) := by
  unfold processPage pageFails
  cases hr : p.rasterFails <;> cases he : p.encodeFails <;> simp

/-! ## C3: the reduction-percent formula -/

/-- C3: for all byte counts, `reduction` equals `(1 - compressed/original) * 100`
when the original size is positive and `0` when it is zero; the function is
total, so there is no division-by-zero fault. -/
theorem reduction_formula (o c : Nat) :
    (0 < o → reduction o c = (1 - (c : ℚ) / (o : ℚ)) * 100) ∧
    (o = 0 → reduction o c = 0) := by
  constructor
  · intro h
    have ho : (o : ℚ) ≠ 0 := by
      exact_mod_cast Nat.pos_iff_ne_zero.mp h
    rw [reduction, if_pos h]
    field_simp
  · intro h
    subst h
    rw [reduction, if_neg (lt_irrefl 0)]

/-- Witness for C3 at originalSize 4, compressedSize 1 and at originalSize 0. -/
theorem reduction_formula_witness :
    reduction 4 1 = (1 - (1 : ℚ) / 4) * 100 ∧ reduction 0 7 = 0 :=
  ⟨(reduction_formula 4 1).1 (by norm_num), (reduction_formula 0 7).2 rfl⟩

/-! ## C6: the empty document -/

/-- C6: a document with zero pages yields a rebuilt document with zero pages
and metrics whose reduction percent is computed from the two byte sizes; the
run returns normally (no error). Serialization of the empty rebuilt document
is the abstract `ser`, modelled from the spec as total. -/
theorem compressRun_empty (ser : List OutPage → Nat) (level : String) (n : Nat) :
    compressRun ser level { pages := [], sizeBytes := n } =
      Except.ok ([],
        { originalSize := n
          compressedSize := ser []
          reductionPercent := reduction n (ser []) }) := rfl

/-! ## C7: the profile table and the default selection -/

/-- C7: the three radio labels map to exactly (quality 90, dpi 150),
(quality 70, dpi 120), (quality 50, dpi 100), and the default radio index
selects the Balanced label. -/
theorem profile_table :
    imageQuality "High Quality (Low Compression)" = 90 ∧
    dpiOf "High Quality (Low Compression)" = 150 ∧
    imageQuality "Balanced (Recommended)" = 70 ∧
    dpiOf "Balanced (Recommended)" = 120 ∧
    imageQuality "Smallest Size (Aggressive Compression)" = 50 ∧
    dpiOf "Smallest Size (Aggressive Compression)" = 100 ∧
    radioOptions.get? radioDefaultIndex = some "Balanced (Recommended)" := by
  refine ⟨?_, ?_, ?_, ?_, ?_, ?_, rfl⟩ <;> decide

/-! ## C10: precedence and totality of profile resolution -/

/-- C10: profile resolution is total over arbitrary strings, with "High
Quality" containment taking precedence over "Balanced" containment, and
every other string mapping silently to the Aggressive parameters. -/
theorem profile_precedence (s : String) :
    (containsSub s "High Quality" = true →
      imageQuality s = 90 ∧ dpiOf s = 150) ∧
    (containsSub s "High Quality" = false → containsSub s "Balanced" = true →
      imageQuality s = 70 ∧ dpiOf s = 120) ∧
    (containsSub s "High Quality" = false → containsSub s "Balanced" = false →
      imageQuality s = 50 ∧ dpiOf s = 100) := by
  unfold imageQuality dpiOf
  refine ⟨fun h => ?_, fun h1 h2 => ?_, fun h1 h2 => ?_⟩ <;> simp_all

/-- Witness for C10: a string containing both "High Quality" and "Balanced"
resolves to the High Quality parameters, and an unrecognized string resolves
to the Aggressive parameters. -/
theorem profile_precedence_witness :
    (imageQuality "High Quality and Balanced" = 90 ∧
      dpiOf "High Quality and Balanced" = 150) ∧
    (imageQuality "garbage" = 50 ∧ dpiOf "garbage" = 100) :=
  ⟨(profile_precedence "High Quality and Balanced").1 (by decide),
   (profile_precedence "garbage").2.2 (by decide) (by decide)⟩

/-! ## The page loop: success and failure characterizations -/

theorem buildPages_ok (dpi quality : Nat) :
    ∀ (ps : List Page) (start : Nat), (∀ p ∈ ps, pageFails p = false) →
      ∃ out, buildPages dpi quality start ps = .ok out ∧
        out.length = ps.length ∧
        ∀ i p, ps[i]? = some p → out[i]? = some (renderPage dpi quality (start + i) p) := by
  intro ps
  induction ps with
  | nil =>
    intro start _
    exact ⟨[], rfl, rfl, fun i p hp => by simp at hp⟩
  | cons p ps ih =>
    intro start h
    have hp : pageFails p = false := h p (List.mem_cons_self p ps)
    obtain ⟨out, hout, hlen, hidx⟩ :=
      ih (start + 1) (fun q hq => h q (List.mem_cons_of_mem p hq))
    refine ⟨renderPage dpi quality start p :: out, ?_, by simp [hlen], ?_⟩
    · unfold buildPages
      rw [processPage_eq, hp]
      simp [hout, Except.map]
    · intro i q hq
      cases i with
      | zero =>
        simp only [List.getElem?_cons_zero, Option.some.injEq] at hq
        subst hq
        simp
      | succ n =>
        simp only [List.getElem?_cons_succ] at hq ⊢
        have harith : start + (n + 1) = start + 1 + n := by omega
        rw [harith]
        exact hidx n q hq

theorem buildPages_error (dpi quality : Nat) :
    ∀ (ps : List Page) (start i : Nat) (p : Page),
      ps[i]? = some p → pageFails p = true →
      (∀ j q, j < i → ps[j]? = some q → pageFails q = false) →
      buildPages dpi quality start ps = .error ⟨start + i⟩ := by
  intro ps
  induction ps with
  | nil =>
    intro start i p hp _ _
    simp at hp
  | cons hd tl ih =>
    intro start i p hp hf hpre
    cases i with
    | zero =>
      simp only [List.getElem?_cons_zero, Option.some.injEq] at hp
      subst hp
      unfold buildPages
      rw [processPage_eq, hf]
      simp
    | succ n =>
      have hhd : pageFails hd = false :=
        hpre 0 hd (Nat.succ_pos n) (by simp)
      simp only [List.getElem?_cons_succ] at hp
      have htl := ih (start + 1) n p hp hf
        (fun j q hj hq => hpre (j + 1) q (Nat.succ_lt_succ hj) (by simpa using hq))
      unfold buildPages
      rw [processPage_eq, hhd]
      simp only [Bool.false_eq_true, if_false, htl, Except.map]
      have harith : start + 1 + n = start + (n + 1) := by omega
      rw [harith]

/-! ## C1: page count and order preservation -/

/-- C1: for any document whose pages all rasterize and encode, and any of the
three profile labels, the run succeeds; the rebuilt document has exactly one
page per source page and the i-th output page is the rendering/encoding of
the i-th input page (its image's source index is i). -/
theorem page_count_and_order_preserved (ser : List OutPage → Nat) (level : String)
    (doc : Document) (hlevel : level ∈ radioOptions)
    (hok : ∀ p ∈ doc.pages, pageFails p = false) :
    ∃ out m, compressRun ser level doc = .ok (out, m) ∧
      out.length = doc.pages.length ∧
      ∀ i p, doc.pages[i]? = some p →
        out[i]? = some (renderPage (dpiOf level) (imageQuality level) i p) ∧
        (renderPage (dpiOf level) (imageQuality level) i p).image.srcIndex = i := by
  obtain ⟨out, hout, hlen, hidx⟩ :=
    buildPages_ok (dpiOf level) (imageQuality level) doc.pages 0 hok
  refine ⟨out,
    { originalSize := doc.sizeBytes
      compressedSize := ser out
      reductionPercent := reduction doc.sizeBytes (ser out) }, ?_, hlen, ?_⟩
  · unfold compressRun
    rw [hout]
    rfl
  · intro i p hp
    exact ⟨by simpa using hidx i p hp, rfl⟩

/-- A document whose single page renders and encodes fine. -/
def pg612 : Page :=
  { widthPt := 612, heightPt := 792, rasterFails := false, encodeFails := false }

/-- A well-behaved two-page document. -/
def goodDoc : Document := { pages := [pg612, pg612], sizeBytes := 5000 }

/-- Witness for C1: the Balanced profile on a concrete two-page document. -/
theorem page_count_and_order_witness :
    ∃ out m, compressRun demoSer balancedLevel goodDoc = .ok (out, m) ∧
      out.length = goodDoc.pages.length ∧
      ∀ i p, goodDoc.pages[i]? = some p →
        out[i]? = some (renderPage (dpiOf balancedLevel) (imageQuality balancedLevel) i p) ∧
        (renderPage (dpiOf balancedLevel) (imageQuality balancedLevel) i p).image.srcIndex = i :=
  page_count_and_order_preserved demoSer balancedLevel goodDoc (by decide)
    (by intro p hp; simp [goodDoc, pg612] at hp; subst hp; rfl)

/-! ## C2: raster pixel dimensions and output page size -/

/-- C2: a page that rasterizes and encodes yields a raster of
`round(W*dpi/72) x round(H*dpi/72)` pixels, and the rebuilt page's physical
size in points equals those pixel counts. -/
theorem raster_dims_and_page_size (p : Page) (dpi quality idx : Nat)
    (h1 : p.rasterFails = false) (h2 : p.encodeFails = false) :
    processPage dpi quality idx p = some (renderPage dpi quality idx p) ∧
    (renderPage dpi quality idx p).image.width = round (p.widthPt * dpi / 72) ∧
    (renderPage dpi quality idx p).image.height = round (p.heightPt * dpi / 72) ∧
    (renderPage dpi quality idx p).widthPt = (renderPage dpi quality idx p).image.width ∧
    (renderPage dpi quality idx p).heightPt = (renderPage dpi quality idx p).image.height := by
  refine ⟨?_, rfl, rfl, rfl, rfl⟩
  rw [processPage_eq]
  unfold pageFails
  rw [h1, h2]
  simp

/-- Witness for C2: a 612x792-point page under the Balanced parameters
(dpi 120, quality 70) yields a 1020x1320-pixel raster and a 1020x1320-point
output page. -/
theorem raster_dims_witness :
    processPage 120 70 0 pg612 =
      some { widthPt := 1020, heightPt := 1320,
             image := { srcIndex := 0, width := 1020, height := 1320, quality := 70 } } := by
  have h := raster_dims_and_page_size pg612 120 70 0 rfl rfl
  rw [h.1]
  norm_num [renderPage, pixW, pixH, pixelsOf, pg612]

/-! ## C4: fail-fast abort with the failing page's index -/

/-- C4: if every page before index i succeeds and page i fails to rasterize
or encode, the whole run (and the whole script) aborts with
`PageRenderError i`; no rebuilt document, bytes or metrics are returned. -/
theorem fail_fast_no_partial_output (ser : List OutPage → Nat) (previewOk : Bool)
    (level : String) (doc : Document) (i : Nat) (p : Page)
    (hp : doc.pages[i]? = some p) (hf : pageFails p = true)
    (hpre : ∀ j q, j < i → doc.pages[j]? = some q → pageFails q = false) :
    compressRun ser level doc = .error ⟨i⟩ ∧
    fullRun ser previewOk level doc = .error ⟨i⟩ := by
  have h := buildPages_error (dpiOf level) (imageQuality level) doc.pages 0 i p hp hf hpre
  have hc : compressRun ser level doc = .error ⟨i⟩ := by
    unfold compressRun
    rw [h]
    simp [Except.map]
  refine ⟨hc, ?_⟩
  unfold fullRun
  rw [hc]

/-- A document whose third page (index 2) fails to rasterize, after two
well-behaved pages. -/
def badDoc3 : Document :=
  { pages := [pg612, pg612,
      { widthPt := 612, heightPt := 792, rasterFails := true, encodeFails := false }]
    sizeBytes := 9000 }

/-- Witness for C4: failure at 0-based index 2 aborts the run with
`PageRenderError 2` even though pages 0 and 1 succeed. -/
theorem fail_fast_witness :
    compressRun demoSer balancedLevel badDoc3 = .error ⟨2⟩ ∧
    fullRun demoSer true balancedLevel badDoc3 = .error ⟨2⟩ :=
  fail_fast_no_partial_output demoSer true balancedLevel badDoc3 2
    { widthPt := 612, heightPt := 792, rasterFails := true, encodeFails := false }
    rfl rfl
    (by
      intro j q hj hq
      interval_cases j <;>
        simp only [badDoc3, List.getElem?_cons_zero, List.getElem?_cons_succ,
          Option.some.injEq] at hq <;>
        subst hq <;> rfl)

/-! ## C5: preview failure is non-fatal -/

/-- C5: once the primary compression produced its result, the script
reaches the download with those same bytes and metrics whether or not the
preview block raises; a raised preview is converted to a warning
(`preview = none`) without altering the primary result. -/
theorem preview_failure_nonfatal (ser : List OutPage → Nat) (level : String)
    (doc : Document) (out : List OutPage) (m : Metrics)
    (h : compressRun ser level doc = .ok (out, m)) :
    fullRun ser false level doc = .ok { output := out, metrics := m, preview := none } ∧
    fullRun ser true level doc =
      .ok { output := out, metrics := m, preview := some (previewPairs doc.pages out) } := by
  constructor <;> (unfold fullRun; rw [h]; rfl)

/-- Witness for C5: a successful run on a concrete document still returns
its bytes and metrics when the preview block raises. -/
theorem preview_failure_witness :
    fullRun demoSer false balancedLevel { pages := [], sizeBytes := 50 } =
      .ok { output := []
            metrics := { originalSize := 50, compressedSize := 20,
                         reductionPercent := reduction 50 20 }
            preview := none } ∧
    fullRun demoSer true balancedLevel { pages := [], sizeBytes := 50 } =
      .ok { output := []
            metrics := { originalSize := 50, compressedSize := 20,
                         reductionPercent := reduction 50 20 }
            preview := some (previewPairs [] []) } :=
  preview_failure_nonfatal demoSer balancedLevel { pages := [], sizeBytes := 50 } []
    { originalSize := 50, compressedSize := 20, reductionPercent := reduction 50 20 } rfl

/-! ## C8: preview pair count, alignment and fixed resolution -/

/-- C8: the preview is an ordered sequence of exactly `min 5 pageCount`
pairs; the i-th pair shows page i of the original and page i of the
compressed document, both rendered at the fixed resolution `previewDpi = 80`,
which no profile parameter enters. -/
theorem preview_pairs_spec (orig : List Page) (comp : List OutPage) :
    previewDpi = 80 ∧
    (previewPairs orig comp).length = min 5 orig.length ∧
    ∀ i p op, i < min 5 orig.length → orig[i]? = some p → comp[i]? = some op →
      (previewPairs orig comp)[i]? =
        some { index := i
               origW := pixW p previewDpi
               origH := pixH p previewDpi
               compW := pixelsOf (op.widthPt : ℚ) previewDpi
               compH := pixelsOf (op.heightPt : ℚ) previewDpi } := by
  refine ⟨rfl, by simp [previewPairs], ?_⟩
  intro i p op hi hp hop
  unfold previewPairs
  rw [List.getElem?_map, List.getElem?_range hi]
  simp only [Option.map_some']
  rw [show orig.get? i = some p from by simpa [List.get?_eq_getElem?] using hp,
      show comp.get? i = some op from by simpa [List.get?_eq_getElem?] using hop]

/-- Six well-behaved source pages. -/
def demoOrig : List Page := [pg612, pg612, pg612, pg612, pg612, pg612]

/-- A rebuilt page of 120x120 points carrying the image of source page k. -/
def outPg (k : Nat) : OutPage :=
  { widthPt := 120, heightPt := 120,
    image := { srcIndex := k, width := 120, height := 120, quality := 70 } }

/-- Six rebuilt pages. -/
def demoComp : List OutPage :=
  [outPg 0, outPg 1, outPg 2, outPg 3, outPg 4, outPg 5]

/-- Witness for C8: six pages give exactly five preview pairs, and the pair
at index 2 shows page 2 of each document rendered at dpi 80:
612x792 points becomes 680x880 pixels and 120x120 points becomes 133x133
pixels. -/
theorem preview_pairs_witness :
    (previewPairs demoOrig demoComp).length = 5 ∧
    (previewPairs demoOrig demoComp)[2]? =
      some { index := 2, origW := 680, origH := 880, compW := 133, compH := 133 } := by
  have h := preview_pairs_spec demoOrig demoComp
  constructor
  · rw [h.2.1]
    rfl
  · have h2 := h.2.2 2 pg612 (outPg 2) (by decide) rfl rfl
    rw [h2]
    norm_num [pixW, pixH, pixelsOf, previewDpi, pg612, outPg, round_eq]

/-! ## C9: handle release on exit paths -/

/-- A document whose only page fails to rasterize. -/
def badDoc : Document :=
  { pages := [{ widthPt := 612, heightPt := 792, rasterFails := true, encodeFails := false }]
    sizeBytes := 1000 }

/-- Counterexample to C9: on the early-abort path the close calls of lines
73-74 are skipped, so the run's outcome (a `PageRenderError`) is returned
with neither the input handle nor the output handle released. -/
theorem handles_counterexample :
    (runHandles demoSer balancedLevel badDoc).1 = .error ⟨0⟩ ∧
    (runHandles demoSer balancedLevel badDoc).2 ≠ (true, true) := by
  constructor
  · rfl
  · have h2 : (runHandles demoSer balancedLevel badDoc).2 = (false, false) := rfl
    rw [h2]
    decide

/-- C9 as amended: both handles are released before the outcome is returned
on the successful path, but on a fatal page render error the exception
propagates past the close calls and neither handle is released. -/
theorem handles_closed_iff_success (ser : List OutPage → Nat) (level : String)
    (doc : Document) :
    ((∀ p ∈ doc.pages, pageFails p = false) →
      (runHandles ser level doc).2 = (true, true)) ∧
    (∀ e, (runHandles ser level doc).1 = .error e →
      (runHandles ser level doc).2 = (false, false)) := by
  constructor
  · intro h
    obtain ⟨out, hout, -, -⟩ :=
      buildPages_ok (dpiOf level) (imageQuality level) doc.pages 0 h
    unfold runHandles compressRun
    rw [hout]
    rfl
  · intro e he
    cases hc : compressRun ser level doc with
    | error e2 =>
      unfold runHandles
      rw [hc]
    | ok r =>
      exfalso
      unfold runHandles at he
      rw [hc] at he
      simp at he

/-- Witness for the amended C9: a clean one-page run closes both handles;
the failing run returns its error with both handles unclosed. -/
theorem handles_closed_witness :
    (runHandles demoSer balancedLevel goodDoc).2 = (true, true) ∧
    (runHandles demoSer balancedLevel badDoc).2 = (false, false) :=
  ⟨(handles_closed_iff_success demoSer balancedLevel goodDoc).1
      (by intro p hp; simp [goodDoc, pg612] at hp; subst hp; rfl),
   (handles_closed_iff_success demoSer balancedLevel badDoc).2 ⟨0⟩ rfl⟩

end PDFCompressor
